import Mathlib

/-!
# Verification of the store-svc product service

Shallow embedding of `main.go` (two source variants: an early one without a
cache, and the current one with an optional Redis read-through cache).

The durable store is modelled as a list of rows of the `products` table; the
cache is modelled as the single entry at key `"products:all"` (the only key
the program ever uses), carrying the cached bytes together with their absolute
expiry instant.  Environment nondeterminism (Redis errors, database errors) is
made explicit through a `Faults` record per request; whether `REDIS_URL` was
configured (`rdb != nil`) is the boolean `ce` threaded through the handlers.
Each handler returns the HTTP response, the successor state, and the trace of
store/cache calls it issued.
-/

namespace StoreSvc

/-! ## RFC3339 timestamp formatting (Go `time.Time.Format(time.RFC3339)`, UTC)

Timestamps are modelled as seconds since the Unix epoch.  `rfc3339` renders
them as `YYYY-MM-DDTHH:MM:SSZ`, which is what Go produces for a UTC time with
zero sub-second part. -/

def pad2 (n : Nat) : String :=
  if n < 10 then "0" ++ toString n else toString n

def pad4 (n : Nat) : String :=
  if n < 10 then "000" ++ toString n
  else if n < 100 then "00" ++ toString n
  else if n < 1000 then "0" ++ toString n
  else toString n

/-- Civil date (year, month, day) from days since 1970-01-01
(the standard Gregorian era-based algorithm, valid for all days ≥ 0). -/
def civilFromDays (z0 : Nat) : Nat × Nat × Nat :=
  let z := z0 + 719468
  let era := z / 146097
  let doe := z % 146097
  let yoe := (doe - doe / 1460 + doe / 36524 - doe / 146096) / 365
  let y := yoe + era * 400
  let doy := doe - (365 * yoe + yoe / 4 - yoe / 100)
  let mp := (5 * doy + 2) / 153
  let d := doy - (153 * mp + 2) / 5 + 1
  let m := if mp < 10 then mp + 3 else mp - 9
  (if m ≤ 2 then y + 1 else y, m, d)

def rfc3339 (t : Nat) : String :=
  let days := t / 86400
  let secs := t % 86400
  let c := civilFromDays days
  pad4 c.1 ++ "-" ++ pad2 c.2.1 ++ "-" ++ pad2 c.2.2 ++ "T" ++
    pad2 (secs / 3600) ++ ":" ++ pad2 (secs % 3600 / 60) ++ ":" ++
    pad2 (secs % 60) ++ "Z"

/-! ## JSON encoding (Go `encoding/json` for the `Product` struct)

`json.Marshal` / `json.Encoder` with default HTML escaping: `"` and `\`
are backslash-escaped, `\n` `\r` `\t` use their short forms, other control
characters and `<` `>` `&` (and U+2028/U+2029) use `\uXXXX`. -/

def hexChar (n : Nat) : Char :=
  if n < 10 then Char.ofNat (48 + n) else Char.ofNat (87 + n)

def escChar (c : Char) : String :=
  if c = '"' then "\\\""
  else if c = '\\' then "\\\\"
  else if c = '\n' then "\\n"
  else if c = '\r' then "\\r"
  else if c = '\t' then "\\t"
  else if c = '<' then "\\u003c"
  else if c = '>' then "\\u003e"
  else if c = '&' then "\\u0026"
  else if c.toNat < 32 then "\\u00" ++ String.singleton (hexChar (c.toNat / 16)) ++ String.singleton (hexChar (c.toNat % 16))
  else if c.toNat = 8232 then "\\u2028"
  else if c.toNat = 8233 then "\\u2029"
  else String.singleton c

def encodeJSONString (s : String) : String :=
  "\"" ++ String.join (s.data.map escChar) ++ "\""

/-- A row of the `products` table (`created_at` as a Unix timestamp). -/
structure Row where
  id : String
  name : String
  priceCents : Int
  stock : Int
  createdAt : Nat
deriving DecidableEq

/-- The Go `Product` struct as it appears on the wire
(`CreatedAt` already RFC3339-formatted). -/
structure Product where
  id : String
  name : String
  priceCents : Int
  stock : Int
  createdAt : String
deriving DecidableEq

def rowToProduct (r : Row) : Product :=
  ⟨r.id, r.name, r.priceCents, r.stock, rfc3339 r.createdAt⟩

/-- JSON object for one product, field order as in the Go struct tags. -/
def encodeProduct (p : Product) : String :=
  "\x7b\"id\":" ++ encodeJSONString p.id ++
  ",\"name\":" ++ encodeJSONString p.name ++
  ",\"priceCents\":" ++ toString p.priceCents ++
  ",\"stock\":" ++ toString p.stock ++
  ",\"created_at\":" ++ encodeJSONString p.createdAt ++ "\x7d"

def encodeProductsTail : List Product → String
  | [] => ""
  | p :: ps => "," ++ encodeProduct p ++ encodeProductsTail ps

/-- JSON array of products; the empty non-nil slice marshals to `[]`. -/
def encodeProductList : List Product → String
  | [] => "[]"
  | p :: ps => "[" ++ encodeProduct p ++ encodeProductsTail ps ++ "]"

/-! ## UUID validation (`github.com/google/uuid`.`Parse`) -/

def isHexCh (c : Char) : Bool :=
  ('0' ≤ c && c ≤ '9') || ('a' ≤ c && c ≤ 'f') || ('A' ≤ c && c ≤ 'F')

/-- The canonical 36-character `8-4-4-4-12` hex-with-hyphens shape
(checked on the first 36 characters of the given list). -/
def uuidCanonical (cs : List Char) : Bool :=
  decide (cs.length ≥ 36) &&
  ((cs.take 36).enum.all fun p =>
    if p.1 = 8 || p.1 = 13 || p.1 = 18 || p.1 = 23 then p.2 = '-' else isHexCh p.2)

def foldEq (a b : List Char) : Bool :=
  a.map Char.toLower == b.map Char.toLower

/-- Faithful model of `uuid.Parse` success: length 36 canonical, length 45
with case-insensitive `urn:uuid:`, length 38 (`\x7buuid\x7d`: Parse drops the
first character and checks the next 36, the closing character is never
inspected), or 32 hex digits with no hyphens. -/
def isValidUUID (s : String) : Bool :=
  let cs := s.data
  if cs.length = 36 then uuidCanonical cs
  else if cs.length = 45 then foldEq (cs.take 9) "urn:uuid:".data && uuidCanonical (cs.drop 9)
  else if cs.length = 38 then uuidCanonical (cs.drop 1)
  else if cs.length = 32 then cs.all isHexCh
  else false

/-! ## System state, faults, events -/

/-- Per-request environment nondeterminism: Redis call failures and
database failures. -/
structure Faults where
  getFail : Bool
  setFail : Bool
  delFail : Bool
  dbFail : Bool
deriving DecidableEq

def noFaults : Faults := ⟨false, false, false, false⟩

/-- Trace of external calls a handler issues, in program order. -/
inductive Event where
  | dbQuery
  | dbExecInsert (r : Row)
  | dbExecDelete (id : String)
  | cacheGet (key : String)
  | cacheSet (key : String) (value : String) (ttlSeconds : Nat)
  | cacheDel (key : String)
deriving DecidableEq

structure Response where
  status : Nat
  body : String
deriving DecidableEq

/-- Durable store contents plus the single cache entry at `"products:all"`:
cached bytes together with their absolute expiry instant. -/
structure SysState where
  store : List Row
  cache : Option (String × Nat)
deriving DecidableEq

structure StepOut where
  resp : Response
  state : SysState
  events : List Event
deriving DecidableEq

def cacheKey : String := "products:all"

def cacheTTL : Nat := 30

/-! ## Sorting (`ORDER BY created_at DESC`) -/

/-- `rowLE a b` : `a` may precede `b` in a descending-by-`created_at` list. -/
def rowLE (a b : Row) : Prop := b.createdAt ≤ a.createdAt

instance : DecidableRel rowLE := fun a b => inferInstanceAs (Decidable (b.createdAt ≤ a.createdAt))

instance : IsTotal Row rowLE :=
  ⟨fun a b => Nat.le_total b.createdAt a.createdAt⟩

instance : IsTrans Row rowLE :=
  ⟨fun _ _ _ h1 h2 => Nat.le_trans h2 h1⟩

def sortRowsDesc (l : List Row) : List Row := List.insertionSort rowLE l

/-- The serialized listing the read path produces from store contents:
rows sorted newest-first, converted to wire products, JSON-encoded. -/
def listingOf (store : List Row) : String :=
  encodeProductList ((sortRowsDesc store).map rowToProduct)

/-! ## Handlers, cache-enabled variant (`rdb != nil` iff `ce`) -/

/-- `rdb.Get(ctx, "products:all")`: `some v` iff the call does not fail and
an unexpired entry is present; Redis errors and absence both yield `none`
(the code treats `err != nil` uniformly). -/
def cacheGetRes (f : Faults) (now : Nat) (c : Option (String × Nat)) : Option String :=
  if f.getFail then none
  else match c with
    | some (v, exp) => if now < exp then some v else none
    | none => none

/-- The value served from cache, if any: the Go condition
`err == nil && s != ""`. -/
def cacheHitVal (ce : Bool) (f : Faults) (now : Nat) (c : Option (String × Nat)) : Option String :=
  if ce then
    match cacheGetRes f now c with
    | some s => if s = "" then none else some s
    | none => none
  else none

/-- The store-authoritative branch of `getProducts`: query, respond,
populate the cache (the Set is attempted whenever the cache is configured;
it takes effect only when it does not fail). -/
def getProductsMiss (ce : Bool) (f : Faults) (now : Nat) (st : SysState) (evs0 : List Event) : StepOut :=
  if f.dbFail then ⟨⟨500, "db error\n"⟩, st, evs0 ++ [Event.dbQuery]⟩
  else
    ⟨⟨200, listingOf st.store⟩,
     ⟨st.store, if ce && !f.setFail then some (listingOf st.store, now + cacheTTL) else st.cache⟩,
     evs0 ++ [Event.dbQuery] ++ if ce then [Event.cacheSet cacheKey (listingOf st.store) cacheTTL] else []⟩

/-- `GET /products`, cache-enabled variant. -/
def getProducts (ce : Bool) (f : Faults) (now : Nat) (st : SysState) : StepOut :=
  match cacheHitVal ce f now st.cache with
  | some s => ⟨⟨200, s⟩, st, if ce then [Event.cacheGet cacheKey] else []⟩
  | none => getProductsMiss ce f now st (if ce then [Event.cacheGet cacheKey] else [])

/-- Decoded `POST /products` request body. -/
structure CreateBody where
  name : String
  priceCents : Int
  stock : Int
deriving DecidableEq

/-- `POST /products`, cache-enabled variant.  `body = none` models a JSON
decode failure; `newId` is the value of `uuid.New().String()` and `now` the
creation instant.  The response body carries the `json.Encoder` trailing
newline. -/
def createProduct (ce : Bool) (f : Faults) (now : Nat) (newId : String)
    (body : Option CreateBody) (st : SysState) : StepOut :=
  match body with
  | none => ⟨⟨400, "bad json\n"⟩, st, []⟩
  | some b =>
    if b.name = "" ∨ b.priceCents ≤ 0 ∨ b.stock < 0 then
      ⟨⟨400, "invalid fields\n"⟩, st, []⟩
    else
      let row : Row := ⟨newId, b.name, b.priceCents, b.stock, now⟩
      if f.dbFail then ⟨⟨500, "insert error\n"⟩, st, [Event.dbExecInsert row]⟩
      else
        ⟨⟨201, encodeProduct (rowToProduct row) ++ "\n"⟩,
         ⟨st.store ++ [row], if ce && !f.delFail then none else st.cache⟩,
         [Event.dbExecInsert row] ++ if ce then [Event.cacheDel cacheKey] else []⟩

def hasPre (pre s : List Char) : Bool :=
  match pre, s with
  | [], _ => true
  | _ :: _, [] => false
  | p :: ps, c :: cs => c = p && hasPre ps cs

/-- `strings.TrimPrefix(r.URL.Path, "/products/")`. -/
def extractId (path : String) : String :=
  if hasPre "/products/".data path.data then ⟨path.data.drop "/products/".data.length⟩
  else path

/-- `DELETE /products/:id`, cache-enabled variant (`id := extractId path`). -/
def productItemHandler (ce : Bool) (f : Faults) (method path : String) (st : SysState) : StepOut :=
  if method ≠ "DELETE" then ⟨⟨405, "method not allowed\n"⟩, st, []⟩
  else if extractId path = "" then ⟨⟨400, "missing id\n"⟩, st, []⟩
  else if !isValidUUID (extractId path) then ⟨⟨400, "invalid id (must be UUID)\n"⟩, st, []⟩
  else if f.dbFail then ⟨⟨500, "db error\n"⟩, st, [Event.dbExecDelete (extractId path)]⟩
  else
    ⟨⟨204, ""⟩,
     ⟨st.store.filter (fun r => r.id != extractId path), if ce && !f.delFail then none else st.cache⟩,
     [Event.dbExecDelete (extractId path)] ++ if ce then [Event.cacheDel cacheKey] else []⟩

/-! ## Handlers, first (cache-free) source variant -/

namespace V1

/-- `GET /products`, first variant: no cache; `json.Encoder` appends a
trailing newline to the marshalled array. -/
def getProducts (f : Faults) (st : List Row) : Response × List Event :=
  if f.dbFail then (⟨500, "db error\n"⟩, [Event.dbQuery])
  else (⟨200, listingOf st ++ "\n"⟩, [Event.dbQuery])

/-- `DELETE /products/:id`, first variant: only the empty id is rejected;
any other id is passed to `DELETE FROM products WHERE id = $1`.  Because the
`id` column is uuid-typed, the store rejects a malformed uuid literal, which
the handler reports as a 500. -/
def productItemHandler (f : Faults) (method path : String) (st : List Row) :
    Response × List Row × List Event :=
  if method ≠ "DELETE" then (⟨405, "method not allowed\n"⟩, st, [])
  else
    let id : String := ⟨path.data.drop "/products/".data.length⟩
    if id = "" then (⟨400, "missing id\n"⟩, st, [])
    else if f.dbFail || !isValidUUID id then (⟨500, "db error\n"⟩, st, [Event.dbExecDelete id])
    else (⟨204, ""⟩, st.filter (fun r => r.id != id), [Event.dbExecDelete id])

end V1

/-! ## Multi-request executions (cache-enabled variant) -/

/-- One inbound request together with its environment nondeterminism. -/
inductive Op where
  | list (f : Faults) (now : Nat)
  | create (f : Faults) (now : Nat) (newId : String) (body : Option CreateBody)
  | del (f : Faults) (now : Nat) (path : String)
deriving DecidableEq

def opTime : Op → Nat
  | .list _ n => n
  | .create _ n _ _ => n
  | .del _ n _ => n

def applyOp (ce : Bool) (st : SysState) : Op → StepOut
  | .list f now => getProducts ce f now st
  | .create f now newId body => createProduct ce f now newId body st
  | .del f _ path => productItemHandler ce f "DELETE" path st

def runOps (ce : Bool) (st : SysState) : List Op → SysState
  | [] => st
  | o :: rest => runOps ce (applyOp ce st o).state rest

/-- `(time, state-after)` snapshots along an execution. -/
def history (ce : Bool) (st : SysState) : List Op → List (Nat × SysState)
  | [] => []
  | o :: rest =>
    (opTime o, (applyOp ce st o).state) :: history ce (applyOp ce st o).state rest

/-- A cache entry `(v, exp)` was produced by a list request at some recorded
snapshot: it serializes that snapshot's (sorted) store and expires exactly
one TTL after it. -/
def entryFrom (hist : List (Nat × SysState)) (v : String) (exp : Nat) : Prop :=
  ∃ p ∈ hist, exp = p.1 + cacheTTL ∧ v = listingOf p.2.store

/-! ## Helper lemmas -/

lemma cacheHitVal_some_ce {ce : Bool} {f : Faults} {now : Nat}
    {c : Option (String × Nat)} {v : String} (h : cacheHitVal ce f now c = some v) :
    ce = true := by
  cases ce
  · simp [cacheHitVal] at h
  · rfl

lemma cacheHitVal_some_inv {ce : Bool} {f : Faults} {now : Nat}
    {c : Option (String × Nat)} {v : String} (h : cacheHitVal ce f now c = some v) :
    ∃ exp, c = some (v, exp) ∧ now < exp := by
  unfold cacheHitVal cacheGetRes at h
  cases ce
  · simp at h
  · simp only [if_true] at h
    by_cases hg : f.getFail
    · simp [hg] at h
    · cases c with
      | none => simp [hg] at h
      | some p =>
        obtain ⟨w, exp⟩ := p
        simp only [hg] at h
        by_cases hlt : now < exp
        · simp only [hlt, if_true, if_pos] at h
          by_cases hw : w = ""
          · simp [hw] at h
          · simp [hw] at h
            exact ⟨exp, by simp [h], hlt⟩
        · simp [hlt] at h

lemma isValidUUID_ne_empty {s : String} (h : isValidUUID s = true) : s ≠ "" := by
  intro he
  subst he
  exact absurd h (by decide)

lemma encodeProduct_len (p : Product) : 6 ≤ (encodeProduct p).length := by
  unfold encodeProduct
  simp only [String.length_append]
  have h6 : ("\x7b\"id\":" : String).length = 6 := by decide
  omega

lemma encodeProductList_eq_empty {l : List Product} (h : encodeProductList l = "[]") :
    l = [] := by
  cases l with
  | nil => rfl
  | cons p ps =>
    exfalso
    have hlen := congrArg String.length h
    simp only [encodeProductList, String.length_append] at hlen
    have h1 : ("[" : String).length = 1 := by decide
    have h2 : ("]" : String).length = 1 := by decide
    have h3 : ("[]" : String).length = 2 := by decide
    have h4 := encodeProduct_len p
    omega

lemma sortRowsDesc_sorted (l : List Row) : List.Sorted rowLE (sortRowsDesc l) :=
  List.sorted_insertionSort rowLE l

lemma mem_sortRowsDesc {l : List Row} {r : Row} : r ∈ sortRowsDesc l ↔ r ∈ l :=
  (List.perm_insertionSort rowLE l).mem_iff

lemma getProducts_state_store (ce : Bool) (f : Faults) (now : Nat) (st : SysState) :
    (getProducts ce f now st).state.store = st.store := by
  unfold getProducts getProductsMiss
  rcases hh : cacheHitVal ce f now st.cache with _ | s <;> simp [hh]
  split <;> rfl

lemma getProducts_cache_cases (ce : Bool) (f : Faults) (now : Nat) (st : SysState) :
    (getProducts ce f now st).state.cache = st.cache ∨
    (getProducts ce f now st).state.cache = some (listingOf st.store, now + cacheTTL) := by
  unfold getProducts getProductsMiss
  rcases hh : cacheHitVal ce f now st.cache with _ | s <;> simp [hh]
  split
  · exact Or.inl rfl
  · split
    · exact Or.inr rfl
    · exact Or.inl rfl

lemma createProduct_cache_cases (ce : Bool) (f : Faults) (now : Nat) (newId : String)
    (body : Option CreateBody) (st : SysState) :
    (createProduct ce f now newId body st).state.cache = st.cache ∨
    (createProduct ce f now newId body st).state.cache = none := by
  unfold createProduct
  cases body with
  | none => exact Or.inl rfl
  | some b =>
    simp only []
    split
    · exact Or.inl rfl
    · split
      · exact Or.inl rfl
      · split
        · exact Or.inr rfl
        · exact Or.inl rfl

lemma productItemHandler_cache_cases (ce : Bool) (f : Faults) (method path : String)
    (st : SysState) :
    (productItemHandler ce f method path st).state.cache = st.cache ∨
    (productItemHandler ce f method path st).state.cache = none := by
  unfold productItemHandler
  split
  · exact Or.inl rfl
  · split
    · exact Or.inl rfl
    · split
      · exact Or.inl rfl
      · split
        · exact Or.inl rfl
        · split
          · exact Or.inr rfl
          · exact Or.inl rfl

/-- Any state transition either leaves the cache entry in place or installs
the serialization of the (unchanged) store with expiry exactly one TTL after
the request's time. -/
lemma applyOp_cache (ce : Bool) (st : SysState) (o : Op) :
    ∀ v exp, (applyOp ce st o).state.cache = some (v, exp) →
      st.cache = some (v, exp) ∨
      (exp = opTime o + cacheTTL ∧ v = listingOf (applyOp ce st o).state.store) := by
  intro v exp h
  cases o with
  | list f now =>
    rcases getProducts_cache_cases ce f now st with hc | hc
    · rw [applyOp] at h
      rw [hc] at h
      exact Or.inl h
    · rw [applyOp] at h
      rw [hc] at h
      simp only [Option.some.injEq, Prod.mk.injEq] at h
      obtain ⟨h1, h2⟩ := h
      refine Or.inr ⟨h2.symm, ?_⟩
      rw [← h1]
      show listingOf st.store = listingOf (getProducts ce f now st).state.store
      rw [getProducts_state_store]
  | create f now newId body =>
    rcases createProduct_cache_cases ce f now newId body st with hc | hc
    · rw [applyOp] at h
      rw [hc] at h
      exact Or.inl h
    · rw [applyOp] at h
      rw [hc] at h
      exact absurd h (by simp)
  | del f time path =>
    rcases productItemHandler_cache_cases ce f "DELETE" path st with hc | hc
    · rw [applyOp] at h
      rw [hc] at h
      exact Or.inl h
    · rw [applyOp] at h
      rw [hc] at h
      exact absurd h (by simp)

/-- Provenance of cache entries: along any execution, an entry present at the
end either already satisfied the initial condition `Q`, or was installed by a
recorded list request: it serializes that snapshot's store and expires one
TTL after the snapshot's time. -/
lemma runOps_entryFrom (ce : Bool) :
    ∀ (ops : List Op) (Q : String → Nat → Prop) (st : SysState),
      (∀ v exp, st.cache = some (v, exp) → Q v exp) →
      ∀ v exp, (runOps ce st ops).cache = some (v, exp) →
        Q v exp ∨ entryFrom (history ce st ops) v exp := by
  intro ops
  induction ops with
  | nil =>
    intro Q st hst v exp hc
    exact Or.inl (hst v exp hc)
  | cons o rest ih =>
    intro Q st hst v exp hc
    have hc' : (runOps ce (applyOp ce st o).state rest).cache = some (v, exp) := by
      simpa [runOps] using hc
    have hbase : ∀ v' exp', (applyOp ce st o).state.cache = some (v', exp') →
        (Q v' exp' ∨ (exp' = opTime o + cacheTTL ∧ v' = listingOf (applyOp ce st o).state.store)) := by
      intro v' exp' h'
      rcases applyOp_cache ce st o v' exp' h' with h0 | h0
      · exact Or.inl (hst _ _ h0)
      · exact Or.inr h0
    rcases ih _ (applyOp ce st o).state hbase v exp hc' with (hq | hnew) | htail
    · exact Or.inl hq
    · refine Or.inr ⟨(opTime o, (applyOp ce st o).state), ?_, hnew.1, hnew.2⟩
      simp [history]
    · obtain ⟨p, hp, h1, h2⟩ := htail
      refine Or.inr ⟨p, ?_, h1, h2⟩
      simp only [history, List.mem_cons]
      exact Or.inr hp

lemma cacheHitVal_none_cacheNone (ce : Bool) (f : Faults) (now : Nat) :
    cacheHitVal ce f now none = none := by
  unfold cacheHitVal cacheGetRes
  cases ce <;> simp

lemma cacheHitVal_none_of_expired {c : Option (String × Nat)} (ce : Bool) (f : Faults)
    {now : Nat} (h : ∀ v exp, c = some (v, exp) → exp ≤ now) :
    cacheHitVal ce f now c = none := by
  unfold cacheHitVal cacheGetRes
  cases ce
  · simp
  · cases c with
    | none => simp
    | some p =>
      obtain ⟨v, exp⟩ := p
      have : ¬ now < exp := Nat.not_lt.mpr (h v exp rfl)
      simp [this]

lemma getProducts_hit (ce : Bool) (f : Faults) (now : Nat) (st : SysState) {v : String}
    (h : cacheHitVal ce f now st.cache = some v) :
    getProducts ce f now st = ⟨⟨200, v⟩, st, [Event.cacheGet cacheKey]⟩ := by
  have hce := cacheHitVal_some_ce h
  unfold getProducts
  rw [h, hce]
  simp

lemma getProducts_miss (ce : Bool) (f : Faults) (now : Nat) (st : SysState)
    (hmiss : cacheHitVal ce f now st.cache = none) (hdb : f.dbFail = false) :
    getProducts ce f now st =
      ⟨⟨200, listingOf st.store⟩,
       ⟨st.store, if ce && !f.setFail then some (listingOf st.store, now + cacheTTL) else st.cache⟩,
       (if ce then [Event.cacheGet cacheKey] else []) ++ [Event.dbQuery] ++
         if ce then [Event.cacheSet cacheKey (listingOf st.store) cacheTTL] else []⟩ := by
  unfold getProducts getProductsMiss
  rw [hmiss, hdb]
  simp

lemma createProduct_success (ce : Bool) (f : Faults) (now : Nat) (newId : String)
    (b : CreateBody) (st : SysState)
    (h1 : b.name ≠ "") (h2 : 0 < b.priceCents) (h3 : 0 ≤ b.stock)
    (hdb : f.dbFail = false) :
    createProduct ce f now newId (some b) st =
      ⟨⟨201, encodeProduct (rowToProduct ⟨newId, b.name, b.priceCents, b.stock, now⟩) ++ "\n"⟩,
       ⟨st.store ++ [⟨newId, b.name, b.priceCents, b.stock, now⟩],
        if ce && !f.delFail then none else st.cache⟩,
       [Event.dbExecInsert ⟨newId, b.name, b.priceCents, b.stock, now⟩] ++
         if ce then [Event.cacheDel cacheKey] else []⟩ := by
  have hv : ¬(b.name = "" ∨ b.priceCents ≤ 0 ∨ b.stock < 0) := by
    push_neg
    exact ⟨h1, h2, h3⟩
  show (if b.name = "" ∨ b.priceCents ≤ 0 ∨ b.stock < 0 then
      (⟨⟨400, "invalid fields\n"⟩, st, []⟩ : StepOut)
    else
      let row : Row := ⟨newId, b.name, b.priceCents, b.stock, now⟩
      if f.dbFail then ⟨⟨500, "insert error\n"⟩, st, [Event.dbExecInsert row]⟩
      else
        ⟨⟨201, encodeProduct (rowToProduct row) ++ "\n"⟩,
         ⟨st.store ++ [row], if ce && !f.delFail then none else st.cache⟩,
         [Event.dbExecInsert row] ++ if ce then [Event.cacheDel cacheKey] else []⟩) = _
  rw [if_neg hv, hdb]
  simp

/-- The create response does not depend on the cache flag or the cache
faults. -/
lemma createProduct_resp (ce : Bool) (f : Faults) (now : Nat) (newId : String)
    (b : CreateBody) (st : SysState) :
    (createProduct ce f now newId (some b) st).resp =
      if b.name = "" ∨ b.priceCents ≤ 0 ∨ b.stock < 0 then ⟨400, "invalid fields\n"⟩
      else if f.dbFail then ⟨500, "insert error\n"⟩
      else ⟨201, encodeProduct (rowToProduct ⟨newId, b.name, b.priceCents, b.stock, now⟩) ++ "\n"⟩ := by
  show (if b.name = "" ∨ b.priceCents ≤ 0 ∨ b.stock < 0 then
      (⟨⟨400, "invalid fields\n"⟩, st, []⟩ : StepOut)
    else
      let row : Row := ⟨newId, b.name, b.priceCents, b.stock, now⟩
      if f.dbFail then ⟨⟨500, "insert error\n"⟩, st, [Event.dbExecInsert row]⟩
      else
        ⟨⟨201, encodeProduct (rowToProduct row) ++ "\n"⟩,
         ⟨st.store ++ [row], if ce && !f.delFail then none else st.cache⟩,
         [Event.dbExecInsert row] ++ if ce then [Event.cacheDel cacheKey] else []⟩).resp = _
  split_ifs <;> rfl

lemma productItemHandler_success (ce : Bool) (f : Faults) (path : String) (st : SysState)
    (hid : isValidUUID (extractId path) = true) (hdb : f.dbFail = false) :
    productItemHandler ce f "DELETE" path st =
      ⟨⟨204, ""⟩,
       ⟨st.store.filter (fun r => r.id != extractId path),
        if ce && !f.delFail then none else st.cache⟩,
       [Event.dbExecDelete (extractId path)] ++
         if ce then [Event.cacheDel cacheKey] else []⟩ := by
  have hm : ¬(("DELETE" : String) ≠ "DELETE") := fun h => h rfl
  have hne := isValidUUID_ne_empty hid
  unfold productItemHandler
  rw [if_neg hm, if_neg hne, hid, hdb]
  simp

/-! ## Claims -/

/-- Claim C1: every list request first probes the cache at the fixed key
`"products:all"`; on a hit it returns the cached value with no store
interaction and no state change, while on a miss or cache error (with the
store healthy) it returns the freshly queried `createdAt`-descending listing,
and the Set at key `"products:all"` is issued with a TTL of exactly 30
seconds (taking effect when it does not fail). -/
theorem c1_list_cache_behavior (ce : Bool) (f : Faults) (now : Nat) (st : SysState) (v : String) :
    (cacheHitVal ce f now st.cache = some v →
      getProducts ce f now st = ⟨⟨200, v⟩, st, [Event.cacheGet cacheKey]⟩) ∧
    (cacheHitVal ce f now st.cache = none → f.dbFail = false →
      getProducts ce f now st =
        ⟨⟨200, listingOf st.store⟩,
         ⟨st.store, if ce && !f.setFail then some (listingOf st.store, now + 30) else st.cache⟩,
         (if ce then [Event.cacheGet cacheKey] else []) ++ [Event.dbQuery] ++
           if ce then [Event.cacheSet cacheKey (listingOf st.store) 30] else []⟩) :=
  ⟨fun h => getProducts_hit ce f now st h,
   fun hmiss hdb => getProducts_miss ce f now st hmiss hdb⟩

/-- Witness for C1 at concrete inputs: a warm-cache hit and a cold-cache
miss. -/
theorem c1_witness :
    getProducts true noFaults 0 ⟨[], some ("x", 5)⟩ =
      ⟨⟨200, "x"⟩, ⟨[], some ("x", 5)⟩, [Event.cacheGet cacheKey]⟩ ∧
    getProducts true noFaults 7 ⟨[], none⟩ =
      ⟨⟨200, "[]"⟩, ⟨[], some ("[]", 37)⟩,
       [Event.cacheGet cacheKey, Event.dbQuery, Event.cacheSet cacheKey "[]" 30]⟩ :=
  ⟨(c1_list_cache_behavior true noFaults 0 ⟨[], some ("x", 5)⟩ "x").1 (by decide),
   (c1_list_cache_behavior true noFaults 7 ⟨[], none⟩ "x").2 (by decide) (by decide)⟩

/-- Claim C3: a create whose decoded body violates the invariant
(`name = ""` or `priceCents ≤ 0` or `stock < 0`) gets a 400 with no store
write and no cache operation (empty event trace, unchanged state); a body
satisfying the invariant passes validation and the store insert is
attempted. -/
theorem c3_create_validation (ce : Bool) (f : Faults) (now : Nat) (newId : String)
    (b : CreateBody) (st : SysState) :
    ((b.name = "" ∨ b.priceCents ≤ 0 ∨ b.stock < 0) →
      createProduct ce f now newId (some b) st = ⟨⟨400, "invalid fields\n"⟩, st, []⟩) ∧
    (b.name ≠ "" → 0 < b.priceCents → 0 ≤ b.stock →
      Event.dbExecInsert ⟨newId, b.name, b.priceCents, b.stock, now⟩ ∈
        (createProduct ce f now newId (some b) st).events) := by
  constructor
  · intro h
    show (if b.name = "" ∨ b.priceCents ≤ 0 ∨ b.stock < 0 then
        (⟨⟨400, "invalid fields\n"⟩, st, []⟩ : StepOut)
      else
        let row : Row := ⟨newId, b.name, b.priceCents, b.stock, now⟩
        if f.dbFail then ⟨⟨500, "insert error\n"⟩, st, [Event.dbExecInsert row]⟩
        else
          ⟨⟨201, encodeProduct (rowToProduct row) ++ "\n"⟩,
           ⟨st.store ++ [row], if ce && !f.delFail then none else st.cache⟩,
           [Event.dbExecInsert row] ++ if ce then [Event.cacheDel cacheKey] else []⟩) = _
    rw [if_pos h]
  · intro h1 h2 h3
    have hv : ¬(b.name = "" ∨ b.priceCents ≤ 0 ∨ b.stock < 0) := by
      push_neg
      exact ⟨h1, h2, h3⟩
    show Event.dbExecInsert ⟨newId, b.name, b.priceCents, b.stock, now⟩ ∈
      (if b.name = "" ∨ b.priceCents ≤ 0 ∨ b.stock < 0 then
        (⟨⟨400, "invalid fields\n"⟩, st, []⟩ : StepOut)
      else
        let row : Row := ⟨newId, b.name, b.priceCents, b.stock, now⟩
        if f.dbFail then ⟨⟨500, "insert error\n"⟩, st, [Event.dbExecInsert row]⟩
        else
          ⟨⟨201, encodeProduct (rowToProduct row) ++ "\n"⟩,
           ⟨st.store ++ [row], if ce && !f.delFail then none else st.cache⟩,
           [Event.dbExecInsert row] ++ if ce then [Event.cacheDel cacheKey] else []⟩).events
    rw [if_neg hv]
    by_cases hdb : f.dbFail <;> simp [hdb]

/-- Witness for C3: the empty-name body from the spec scenario is rejected
with no side effects; the valid Widget body reaches the insert. -/
theorem c3_witness :
    createProduct true noFaults 0 "w1" (some ⟨"", 500, 10⟩) ⟨[], none⟩ =
      ⟨⟨400, "invalid fields\n"⟩, ⟨[], none⟩, []⟩ ∧
    Event.dbExecInsert ⟨"w1", "Widget", 500, 10, 0⟩ ∈
      (createProduct true noFaults 0 "w1" (some ⟨"Widget", 500, 10⟩) ⟨[], none⟩).events :=
  ⟨(c3_create_validation true noFaults 0 "w1" ⟨"", 500, 10⟩ ⟨[], none⟩).1 (by decide),
   (c3_create_validation true noFaults 0 "w1" ⟨"Widget", 500, 10⟩ ⟨[], none⟩).2
     (by decide) (by decide) (by decide)⟩

/-- Claim C4: a valid create responds 201 with the full JSON representation
of the product: the submitted `name`, `priceCents`, `stock`, the freshly
generated id and the creation timestamp formatted as RFC3339 (the streaming
encoder terminates the body with a newline). -/
theorem c4_create_response (ce : Bool) (f : Faults) (now : Nat) (newId : String)
    (b : CreateBody) (st : SysState)
    (h1 : b.name ≠ "") (h2 : 0 < b.priceCents) (h3 : 0 ≤ b.stock)
    (hdb : f.dbFail = false) :
    (createProduct ce f now newId (some b) st).resp =
      ⟨201, encodeProduct ⟨newId, b.name, b.priceCents, b.stock, rfc3339 now⟩ ++ "\n"⟩ := by
  rw [createProduct_success ce f now newId b st h1 h2 h3 hdb]
  simp [rowToProduct]

/-- Witness for C4: the spec's Widget scenario. -/
theorem c4_witness :
    (createProduct true noFaults 0 "w1" (some ⟨"Widget", 500, 10⟩) ⟨[], none⟩).resp =
      ⟨201, encodeProduct ⟨"w1", "Widget", 500, 10, rfc3339 0⟩ ++ "\n"⟩ :=
  c4_create_response true noFaults 0 "w1" ⟨"Widget", 500, 10⟩ ⟨[], none⟩
    (by decide) (by decide) (by decide) (by decide)

/-- Claim C5 counterexample: in the first source variant the delete handler
validates nothing beyond non-emptiness, so `DELETE /products/not-a-uuid`
reaches the store (a `dbExecDelete` call is issued) and the request ends in
500 — the uuid-typed `id` column rejects the literal — not in the claimed
400; the same holds when the database is additionally failing. -/
theorem c5_cex :
    (V1.productItemHandler noFaults "DELETE" "/products/not-a-uuid" []).1.status = 500 ∧
    Event.dbExecDelete "not-a-uuid" ∈
      (V1.productItemHandler noFaults "DELETE" "/products/not-a-uuid" []).2.2 ∧
    (V1.productItemHandler ⟨false, false, false, true⟩ "DELETE" "/products/not-a-uuid" []).1.status = 500 :=
  ⟨by decide, by decide, by decide⟩

/-- Claim C5 (amended): in the cache-enabled variant a delete whose path
identifier is non-empty and not a well-formed UUID is rejected with 400
before any store interaction (empty event trace, unchanged state); the first
variant rejects only the empty identifier, and a malformed one such as
`"not-a-uuid"` reaches the store and surfaces as a server error. -/
theorem c5_delete_rejects_malformed (ce : Bool) (f : Faults) (path : String) (st : SysState)
    (hne : extractId path ≠ "") (hbad : isValidUUID (extractId path) = false) :
    productItemHandler ce f "DELETE" path st =
      ⟨⟨400, "invalid id (must be UUID)\n"⟩, st, []⟩ := by
  have hm : ¬(("DELETE" : String) ≠ "DELETE") := fun h => h rfl
  unfold productItemHandler
  rw [if_neg hm, if_neg hne, hbad]
  simp

/-- Witness for C5 (amended): the spec scenario `DELETE /products/not-a-uuid`. -/
theorem c5_witness :
    productItemHandler true noFaults "DELETE" "/products/not-a-uuid" ⟨[], none⟩ =
      ⟨⟨400, "invalid id (must be UUID)\n"⟩, ⟨[], none⟩, []⟩ :=
  c5_delete_rejects_malformed true noFaults "/products/not-a-uuid" ⟨[], none⟩
    (by decide) (by decide)

/-- Claim C6: delete of a well-formed id is idempotent — it yields 204 with
the store healthy, deleting again immediately yields 204 again, and the
response is the same whatever the store contents, so "deleted" and "was
already absent" are indistinguishable to the caller. -/
theorem c6_delete_idempotent (ce : Bool) (f f2 : Faults) (path : String) (st : SysState)
    (hid : isValidUUID (extractId path) = true)
    (hdb : f.dbFail = false) (hdb2 : f2.dbFail = false) :
    (productItemHandler ce f "DELETE" path st).resp = ⟨204, ""⟩ ∧
    (productItemHandler ce f2 "DELETE" path
      (productItemHandler ce f "DELETE" path st).state).resp = ⟨204, ""⟩ ∧
    ∀ st' : SysState, (productItemHandler ce f "DELETE" path st').resp = ⟨204, ""⟩ := by
  refine ⟨?_, ?_, fun st' => ?_⟩ <;>
    rw [productItemHandler_success ce _ path _ hid (by assumption)]

/-- Witness for C6: double delete of a concrete UUID, from a store that
contains it. -/
theorem c6_witness :
    (productItemHandler true noFaults "DELETE"
      "/products/123e4567-e89b-12d3-a456-426614174000"
      ⟨[⟨"123e4567-e89b-12d3-a456-426614174000", "Widget", 500, 10, 0⟩], none⟩).resp = ⟨204, ""⟩ ∧
    (productItemHandler true noFaults "DELETE"
      "/products/123e4567-e89b-12d3-a456-426614174000"
      (productItemHandler true noFaults "DELETE"
        "/products/123e4567-e89b-12d3-a456-426614174000"
        ⟨[⟨"123e4567-e89b-12d3-a456-426614174000", "Widget", 500, 10, 0⟩], none⟩).state).resp = ⟨204, ""⟩ ∧
    ∀ st' : SysState,
      (productItemHandler true noFaults "DELETE"
        "/products/123e4567-e89b-12d3-a456-426614174000" st').resp = ⟨204, ""⟩ :=
  c6_delete_idempotent true noFaults noFaults
    "/products/123e4567-e89b-12d3-a456-426614174000"
    ⟨[⟨"123e4567-e89b-12d3-a456-426614174000", "Widget", 500, 10, 0⟩], none⟩
    (by decide) (by decide) (by decide)

/-- Claim C7: cache failures are invisible to callers — whenever the cache
probe does not produce a hit (cache disabled, Get failed, entry absent or
expired), the list response equals the cache-free one (in particular a failed
cache population never affects it), and create/delete responses equal their
cache-free counterparts unconditionally (a failed invalidation still reports
success). -/
theorem c7_cache_failures_invisible (ce : Bool) (f : Faults) (now : Nat) (newId : String)
    (body : Option CreateBody) (method path : String) (st : SysState) :
    (cacheHitVal ce f now st.cache = none →
      (getProducts ce f now st).resp = (getProducts false f now st).resp) ∧
    (createProduct ce f now newId body st).resp =
      (createProduct false f now newId body st).resp ∧
    (productItemHandler ce f method path st).resp =
      (productItemHandler false f method path st).resp := by
  refine ⟨?_, ?_, ?_⟩
  · intro hmiss
    have hmiss0 : cacheHitVal false f now st.cache = none := by simp [cacheHitVal]
    unfold getProducts
    rw [hmiss, hmiss0]
    unfold getProductsMiss
    by_cases hdb : f.dbFail <;> simp [hdb]
  · cases body with
    | none => rfl
    | some b =>
      rw [createProduct_resp ce f now newId b st, createProduct_resp false f now newId b st]
  · unfold productItemHandler
    split_ifs <;> rfl

/-- Witness for C7: a fully failing cache (all cache calls erring) against a
warm entry; the read hypothesis is discharged because the Get fails. -/
theorem c7_witness :
    (getProducts true ⟨true, true, true, false⟩ 0 ⟨[], some ("x", 5)⟩).resp =
      (getProducts false ⟨true, true, true, false⟩ 0 ⟨[], some ("x", 5)⟩).resp ∧
    (createProduct true ⟨true, true, true, false⟩ 0 "w1" (some ⟨"Widget", 500, 10⟩)
        ⟨[], some ("x", 5)⟩).resp =
      (createProduct false ⟨true, true, true, false⟩ 0 "w1" (some ⟨"Widget", 500, 10⟩)
        ⟨[], some ("x", 5)⟩).resp ∧
    (productItemHandler true ⟨true, true, true, false⟩ "DELETE"
        "/products/123e4567-e89b-12d3-a456-426614174000" ⟨[], some ("x", 5)⟩).resp =
      (productItemHandler false ⟨true, true, true, false⟩ "DELETE"
        "/products/123e4567-e89b-12d3-a456-426614174000" ⟨[], some ("x", 5)⟩).resp :=
  ⟨(c7_cache_failures_invisible true ⟨true, true, true, false⟩ 0 "w1"
      (some ⟨"Widget", 500, 10⟩) "DELETE"
      "/products/123e4567-e89b-12d3-a456-426614174000" ⟨[], some ("x", 5)⟩).1 (by decide),
   (c7_cache_failures_invisible true ⟨true, true, true, false⟩ 0 "w1"
      (some ⟨"Widget", 500, 10⟩) "DELETE"
      "/products/123e4567-e89b-12d3-a456-426614174000" ⟨[], some ("x", 5)⟩).2.1,
   (c7_cache_failures_invisible true ⟨true, true, true, false⟩ 0 "w1"
      (some ⟨"Widget", 500, 10⟩) "DELETE"
      "/products/123e4567-e89b-12d3-a456-426614174000" ⟨[], some ("x", 5)⟩).2.2⟩

/-- Claim C10 counterexample: in the first source variant the empty listing
is written through `json.Encoder.Encode`, which appends a newline, so the
response body is `"[]\n"`, not the claimed exact string `"[]"`. -/
theorem c10_cex :
    (V1.getProducts noFaults []).1 = ⟨200, "[]\n"⟩ ∧ "[]\n" ≠ "[]" :=
  ⟨by decide, by decide⟩

/-- Claim C10 (amended): a list against an empty store and cold cache
succeeds with 200 and its JSON content is the empty array `[]` — exactly
`"[]"` in the cache-enabled variant, `"[]"` plus the encoder's trailing
newline in the first variant — and never JSON `null`, because the
accumulator starts as a non-nil empty slice in both variants. -/
theorem c10_empty_listing (ce : Bool) (f g : Faults) (now : Nat)
    (hdb : f.dbFail = false) (hdbg : g.dbFail = false) :
    (getProducts ce f now ⟨[], none⟩).resp = ⟨200, "[]"⟩ ∧
    (getProducts ce f now ⟨[], none⟩).resp.body ≠ "null" ∧
    (V1.getProducts g []).1 = ⟨200, "[]" ++ "\n"⟩ := by
  have hmiss : cacheHitVal ce f now (⟨[], none⟩ : SysState).cache = none :=
    cacheHitVal_none_cacheNone ce f now
  have h1 : (getProducts ce f now ⟨[], none⟩).resp = ⟨200, "[]"⟩ := by
    rw [getProducts_miss ce f now ⟨[], none⟩ hmiss hdb]
    rfl
  refine ⟨h1, ?_, ?_⟩
  · rw [h1]
    decide
  · unfold V1.getProducts
    rw [hdbg]
    simp
    decide

/-- Witness for C10 (amended) at concrete fault-free inputs. -/
theorem c10_witness :
    (getProducts true noFaults 3 ⟨[], none⟩).resp = ⟨200, "[]"⟩ ∧
    (getProducts true noFaults 3 ⟨[], none⟩).resp.body ≠ "null" ∧
    (V1.getProducts noFaults []).1 = ⟨200, "[]" ++ "\n"⟩ :=
  c10_empty_listing true noFaults noFaults 3 (by decide) (by decide)

/-- Claim C8: starting from a cold cache, every value ever present under the
cache key is the serialization of a `created_at`-descending row list, and
every 200 list response — whether served from the cache or the store — has
such a serialization as its body. -/
theorem c8_listing_sorted (ce : Bool) (init : SysState) (ops : List Op)
    (v : String) (exp : Nat) (f : Faults) (now : Nat)
    (hinit : init.cache = none) :
    ((runOps ce init ops).cache = some (v, exp) →
      ∃ rows : List Row, List.Sorted rowLE rows ∧
        v = encodeProductList (rows.map rowToProduct)) ∧
    ((getProducts ce f now (runOps ce init ops)).resp.status = 200 →
      ∃ rows : List Row, List.Sorted rowLE rows ∧
        (getProducts ce f now (runOps ce init ops)).resp.body =
          encodeProductList (rows.map rowToProduct)) := by
  have hprov : ∀ v' exp', (runOps ce init ops).cache = some (v', exp') →
      ∃ rows : List Row, List.Sorted rowLE rows ∧
        v' = encodeProductList (rows.map rowToProduct) := by
    intro v' exp' hc
    rcases runOps_entryFrom ce ops (fun _ _ => False) init
        (by intro a b hab; rw [hinit] at hab; cases hab) v' exp' hc with hf | hent
    · exact hf.elim
    · obtain ⟨p, _, _, hv⟩ := hent
      exact ⟨sortRowsDesc p.2.store, sortRowsDesc_sorted _, by simpa [listingOf] using hv⟩
  constructor
  · exact fun h => hprov v exp h
  · intro h200
    rcases hh : cacheHitVal ce f now (runOps ce init ops).cache with _ | s
    · by_cases hdb : f.dbFail
      · exfalso
        revert h200
        unfold getProducts getProductsMiss
        rw [hh]
        simp [hdb]
      · refine ⟨sortRowsDesc (runOps ce init ops).store, sortRowsDesc_sorted _, ?_⟩
        rw [getProducts_miss ce f now _ hh (by simpa using hdb)]
        rfl
    · obtain ⟨exp', hcache, _⟩ := cacheHitVal_some_inv hh
      obtain ⟨rows, hs, hv⟩ := hprov s exp' hcache
      refine ⟨rows, hs, ?_⟩
      rw [getProducts_hit ce f now _ hh]
      exact hv

/-- Witness for C8: one list populates the cache; a later warm hit at time 5
serves it.  The cold-start hypothesis is discharged definitionally. -/
theorem c8_witness :
    ((runOps true ⟨[], none⟩ [Op.list noFaults 0]).cache = some ("[]", 30) →
      ∃ rows : List Row, List.Sorted rowLE rows ∧
        ("[]" : String) = encodeProductList (rows.map rowToProduct)) ∧
    ((getProducts true noFaults 5 (runOps true ⟨[], none⟩ [Op.list noFaults 0])).resp.status = 200 →
      ∃ rows : List Row, List.Sorted rowLE rows ∧
        (getProducts true noFaults 5 (runOps true ⟨[], none⟩ [Op.list noFaults 0])).resp.body =
          encodeProductList (rows.map rowToProduct)) :=
  c8_listing_sorted true ⟨[], none⟩ [Op.list noFaults 0] "[]" 30 noFaults 5 rfl

/-- Claim C2: after a successful create (resp. delete) whose cache
invalidation also succeeded, the immediately following healthy list request
returns the then-current listing — the created row is in it, the deleted id
is not; and from a cold start, any 200 list response is either the current
listing or a cache snapshot recorded less than one TTL (30 s) before the
request's time. -/
theorem c2_cache_coherence
    (fc : Faults) (nowc : Nat) (idc : String) (bc : CreateBody) (stc : SysState)
    (f2 : Faults) (now2 : Nat)
    (fd : Faults) (pathd : String) (std : SysState) (f3 : Faults) (now3 : Nat)
    (ce4 : Bool) (init : SysState) (ops : List Op) (f4 : Faults) (now4 : Nat) :
    (bc.name ≠ "" → 0 < bc.priceCents → 0 ≤ bc.stock → fc.dbFail = false →
      fc.delFail = false → f2.dbFail = false →
      (getProducts true f2 now2 (createProduct true fc nowc idc (some bc) stc).state).resp =
        ⟨200, listingOf (createProduct true fc nowc idc (some bc) stc).state.store⟩ ∧
      (⟨idc, bc.name, bc.priceCents, bc.stock, rfc3339 nowc⟩ : Product) ∈
        (sortRowsDesc (createProduct true fc nowc idc (some bc) stc).state.store).map
          rowToProduct) ∧
    (isValidUUID (extractId pathd) = true → fd.dbFail = false → fd.delFail = false →
      f3.dbFail = false →
      (getProducts true f3 now3 (productItemHandler true fd "DELETE" pathd std).state).resp =
        ⟨200, listingOf (productItemHandler true fd "DELETE" pathd std).state.store⟩ ∧
      ∀ q ∈ (sortRowsDesc (productItemHandler true fd "DELETE" pathd std).state.store).map
          rowToProduct, q.id ≠ extractId pathd) ∧
    (init.cache = none →
      (getProducts ce4 f4 now4 (runOps ce4 init ops)).resp.status = 200 →
      (∃ p ∈ history ce4 init ops, now4 < p.1 + 30 ∧
        (getProducts ce4 f4 now4 (runOps ce4 init ops)).resp.body = listingOf p.2.store) ∨
      (getProducts ce4 f4 now4 (runOps ce4 init ops)).resp.body =
        listingOf (runOps ce4 init ops).store) := by
  refine ⟨?_, ?_, ?_⟩
  · intro h1 h2 h3 hdb hdel hdb2
    have hcr := createProduct_success true fc nowc idc bc stc h1 h2 h3 hdb
    have hcache : (createProduct true fc nowc idc (some bc) stc).state.cache = none := by
      rw [hcr]
      simp [hdel]
    have hmiss : cacheHitVal true f2 now2
        (createProduct true fc nowc idc (some bc) stc).state.cache = none := by
      rw [hcache]
      exact cacheHitVal_none_cacheNone _ _ _
    refine ⟨by rw [getProducts_miss true f2 now2 _ hmiss hdb2], ?_⟩
    have hrowmem : (⟨idc, bc.name, bc.priceCents, bc.stock, nowc⟩ : Row) ∈
        (createProduct true fc nowc idc (some bc) stc).state.store := by
      rw [hcr]
      simp
    have hmap := List.mem_map_of_mem rowToProduct (mem_sortRowsDesc.mpr hrowmem)
    simpa [rowToProduct] using hmap
  · intro hid hdb hdel hdb3
    have hdl := productItemHandler_success true fd pathd std hid hdb
    have hcache : (productItemHandler true fd "DELETE" pathd std).state.cache = none := by
      rw [hdl]
      simp [hdel]
    have hmiss : cacheHitVal true f3 now3
        (productItemHandler true fd "DELETE" pathd std).state.cache = none := by
      rw [hcache]
      exact cacheHitVal_none_cacheNone _ _ _
    refine ⟨by rw [getProducts_miss true f3 now3 _ hmiss hdb3], ?_⟩
    intro q hq
    rw [hdl] at hq
    simp only [List.mem_map] at hq
    obtain ⟨r, hr, hqr⟩ := hq
    have hfil := List.mem_filter.mp (mem_sortRowsDesc.mp hr)
    intro heq
    rw [← hqr] at heq
    have hrid : r.id = extractId pathd := heq
    have : (r.id != extractId pathd) = true := hfil.2
    rw [hrid] at this
    simp at this
  · intro hinit h200
    rcases hh : cacheHitVal ce4 f4 now4 (runOps ce4 init ops).cache with _ | s
    · right
      by_cases hdb : f4.dbFail
      · exfalso
        revert h200
        unfold getProducts getProductsMiss
        rw [hh]
        simp [hdb]
      · rw [getProducts_miss ce4 f4 now4 _ hh (by simpa using hdb)]
    · left
      obtain ⟨exp', hcache, hlt⟩ := cacheHitVal_some_inv hh
      rcases runOps_entryFrom ce4 ops (fun _ _ => False) init
          (by intro a b hab; rw [hinit] at hab; cases hab) s exp' hcache with hf | hent
      · exact hf.elim
      · obtain ⟨p, hp, hexp, hv⟩ := hent
        refine ⟨p, hp, ?_, ?_⟩
        · rw [hexp] at hlt
          exact hlt
        · rw [getProducts_hit ce4 f4 now4 _ hh]
          exact hv

/-- Witness for C2: a create followed by a list on an empty initial store; a
delete of a present row followed by a list; and the staleness bound on the
trivial cold execution. -/
theorem c2_witness :
    ((getProducts true noFaults 1
        (createProduct true noFaults 0 "w1" (some ⟨"Widget", 500, 10⟩) ⟨[], none⟩).state).resp =
      ⟨200, listingOf
        (createProduct true noFaults 0 "w1" (some ⟨"Widget", 500, 10⟩) ⟨[], none⟩).state.store⟩ ∧
     (⟨"w1", "Widget", 500, 10, rfc3339 0⟩ : Product) ∈
      (sortRowsDesc
        (createProduct true noFaults 0 "w1" (some ⟨"Widget", 500, 10⟩) ⟨[], none⟩).state.store).map
        rowToProduct) ∧
    ((getProducts true noFaults 2
        (productItemHandler true noFaults "DELETE"
          "/products/123e4567-e89b-12d3-a456-426614174000"
          ⟨[⟨"123e4567-e89b-12d3-a456-426614174000", "Widget", 500, 10, 0⟩], none⟩).state).resp =
      ⟨200, listingOf
        (productItemHandler true noFaults "DELETE"
          "/products/123e4567-e89b-12d3-a456-426614174000"
          ⟨[⟨"123e4567-e89b-12d3-a456-426614174000", "Widget", 500, 10, 0⟩], none⟩).state.store⟩ ∧
     ∀ q ∈ (sortRowsDesc
        (productItemHandler true noFaults "DELETE"
          "/products/123e4567-e89b-12d3-a456-426614174000"
          ⟨[⟨"123e4567-e89b-12d3-a456-426614174000", "Widget", 500, 10, 0⟩], none⟩).state.store).map
        rowToProduct,
      q.id ≠ extractId "/products/123e4567-e89b-12d3-a456-426614174000") ∧
    ((∃ p ∈ history true (⟨[], none⟩ : SysState) ([] : List Op), (0 : Nat) < p.1 + 30 ∧
        (getProducts true noFaults 0 (runOps true ⟨[], none⟩ [])).resp.body = listingOf p.2.store) ∨
      (getProducts true noFaults 0 (runOps true ⟨[], none⟩ [])).resp.body =
        listingOf (runOps true (⟨[], none⟩ : SysState) ([] : List Op)).store) :=
  ⟨(c2_cache_coherence noFaults 0 "w1" ⟨"Widget", 500, 10⟩ ⟨[], none⟩ noFaults 1
      noFaults "/products/123e4567-e89b-12d3-a456-426614174000"
      ⟨[⟨"123e4567-e89b-12d3-a456-426614174000", "Widget", 500, 10, 0⟩], none⟩ noFaults 2
      true ⟨[], none⟩ [] noFaults 0).1
      (by decide) (by decide) (by decide) (by decide) (by decide) (by decide),
   (c2_cache_coherence noFaults 0 "w1" ⟨"Widget", 500, 10⟩ ⟨[], none⟩ noFaults 1
      noFaults "/products/123e4567-e89b-12d3-a456-426614174000"
      ⟨[⟨"123e4567-e89b-12d3-a456-426614174000", "Widget", 500, 10, 0⟩], none⟩ noFaults 2
      true ⟨[], none⟩ [] noFaults 0).2.1
      (by decide) (by decide) (by decide) (by decide),
   (c2_cache_coherence noFaults 0 "w1" ⟨"Widget", 500, 10⟩ ⟨[], none⟩ noFaults 1
      noFaults "/products/123e4567-e89b-12d3-a456-426614174000"
      ⟨[⟨"123e4567-e89b-12d3-a456-426614174000", "Widget", 500, 10, 0⟩], none⟩ noFaults 2
      true ⟨[], none⟩ [] noFaults 0).2.2
      rfl (by decide)⟩

/-- Claim C9 counterexample: a list at time 0 caches `"[]"` (expiry 30); a
create at time 5 succeeds but its invalidation fails; a list at time 10 —
before the pre-create entry's TTL has expired, satisfying the claim's
condition — serves the stale `"[]"`, which cannot encode a list containing
the created Widget. -/
theorem c9_cex :
    (createProduct true ⟨false, false, true, false⟩ 5 "w1" (some ⟨"Widget", 500, 10⟩)
      (getProducts true noFaults 0 ⟨[], none⟩).state).resp.status = 201 ∧
    (createProduct true ⟨false, false, true, false⟩ 5 "w1" (some ⟨"Widget", 500, 10⟩)
      (getProducts true noFaults 0 ⟨[], none⟩).state).state.cache = some ("[]", 30) ∧
    (10 : Nat) < 30 ∧
    (getProducts true noFaults 10
      (createProduct true ⟨false, false, true, false⟩ 5 "w1" (some ⟨"Widget", 500, 10⟩)
        (getProducts true noFaults 0 ⟨[], none⟩).state).state).resp = ⟨200, "[]"⟩ ∧
    ¬∃ l : List Product,
      (getProducts true noFaults 10
        (createProduct true ⟨false, false, true, false⟩ 5 "w1" (some ⟨"Widget", 500, 10⟩)
          (getProducts true noFaults 0 ⟨[], none⟩).state).state).resp.body =
        encodeProductList l ∧
      ∃ q ∈ l, q.name = "Widget" ∧ q.priceCents = 500 ∧ q.stock = 10 := by
  refine ⟨by decide, by decide, by decide, by decide, ?_⟩
  rintro ⟨l, hl, q, hq, -⟩
  have hbody : (getProducts true noFaults 10
      (createProduct true ⟨false, false, true, false⟩ 5 "w1" (some ⟨"Widget", 500, 10⟩)
        (getProducts true noFaults 0 ⟨[], none⟩).state).state).resp.body = "[]" := by decide
  rw [hbody] at hl
  have hnil := encodeProductList_eq_empty hl.symm
  subst hnil
  simp at hq

/-- Claim C9 (amended): a successful create followed by a list returns a
list containing the created product — with the submitted fields and the
assigned id and RFC3339 timestamp — provided the invalidation succeeded or
any pre-create cache entry's TTL has expired by the time of the list. -/
theorem c9_round_trip
    (ce : Bool) (fc : Faults) (nowc : Nat) (idc : String) (bc : CreateBody) (st : SysState)
    (f2 : Faults) (now2 : Nat)
    (h1 : bc.name ≠ "") (h2 : 0 < bc.priceCents) (h3 : 0 ≤ bc.stock)
    (hdbc : fc.dbFail = false) (hdb2 : f2.dbFail = false)
    (hcond : (ce = true ∧ fc.delFail = false) ∨
      (∀ v exp, (createProduct ce fc nowc idc (some bc) st).state.cache = some (v, exp) →
        exp ≤ now2)) :
    ∃ l : List Product,
      (getProducts ce f2 now2 (createProduct ce fc nowc idc (some bc) st).state).resp =
        ⟨200, encodeProductList l⟩ ∧
      (⟨idc, bc.name, bc.priceCents, bc.stock, rfc3339 nowc⟩ : Product) ∈ l := by
  have hcr := createProduct_success ce fc nowc idc bc st h1 h2 h3 hdbc
  have hmiss : cacheHitVal ce f2 now2
      (createProduct ce fc nowc idc (some bc) st).state.cache = none := by
    rcases hcond with ⟨hce, hdel⟩ | hexp
    · have hcache : (createProduct ce fc nowc idc (some bc) st).state.cache = none := by
        rw [hcr]
        simp [hce, hdel]
      rw [hcache]
      exact cacheHitVal_none_cacheNone _ _ _
    · exact cacheHitVal_none_of_expired ce f2 hexp
  refine ⟨(sortRowsDesc (createProduct ce fc nowc idc (some bc) st).state.store).map
      rowToProduct, ?_, ?_⟩
  · rw [getProducts_miss ce f2 now2 _ hmiss hdb2]
    rfl
  · have hrowmem : (⟨idc, bc.name, bc.priceCents, bc.stock, nowc⟩ : Row) ∈
        (createProduct ce fc nowc idc (some bc) st).state.store := by
      rw [hcr]
      simp
    have hmap := List.mem_map_of_mem rowToProduct (mem_sortRowsDesc.mpr hrowmem)
    simpa [rowToProduct] using hmap

/-- Witness for C9 (amended): create then list on an initially empty system,
with the invalidation succeeding. -/
theorem c9_witness :
    ∃ l : List Product,
      (getProducts true noFaults 9
        (createProduct true noFaults 4 "w1" (some ⟨"Widget", 500, 10⟩) ⟨[], none⟩).state).resp =
        ⟨200, encodeProductList l⟩ ∧
      (⟨"w1", "Widget", 500, 10, rfc3339 4⟩ : Product) ∈ l :=
  c9_round_trip true noFaults 4 "w1" ⟨"Widget", 500, 10⟩ ⟨[], none⟩ noFaults 9
    (by decide) (by decide) (by decide) (by decide) (by decide)
    (Or.inl ⟨rfl, rfl⟩)

end StoreSvc
